import Mathlib

/-!
Verification of the query-building and response-normalization layer of the
solr-mcp server (`src/solr_mcp_server/solr_client.py` and `config.py`).

The Python code is shallowly embedded: each pure fragment becomes a Lean
function over explicit data; exception channels become `Except`/`Option`;
Python truthiness of optional lists/strings is modelled explicitly.  JSON
leaf values appearing in raw engine replies are modelled by `JVal`
(strings and integers, the shapes the client actually manipulates).
-/

namespace SolrMCP

/-- A JSON-compatible leaf value as it appears in a raw SOLR reply:
either a string or an integer.  These are the only shapes the client's
facet/document processing distinguishes. -/
inductive JVal where
  | str (s : String)
  | num (n : Int)
deriving DecidableEq, Repr

/-- Python `str()` applied to a `JVal`: a string maps to itself, an
integer to its decimal representation. -/
def pyStr : JVal → String
  | .str s => s
  | .num n => toString n

/-- Pydantic v1 coercion of a value into an `int` field: an integer
passes through; a numeric string is coerced via `int(s)`; anything else
raises a ValidationError (modelled as `none`). -/
def pydanticInt : JVal → Option Int
  | .num n => n
  | .str s => s.toInt?

/-- `FacetValue` model from `solr_client.py`: a facet bucket label and
its count. -/
structure FacetValue where
  value : String
  count : Int
deriving DecidableEq, Repr

/-- `FacetField` model from `solr_client.py`: a facet field name plus its
ordered list of values. -/
structure FacetField where
  name : String
  values : List FacetValue
deriving DecidableEq, Repr

/-- The inner loop of `SOLRClient._process_search_response` (lines
395-401): the flat alternating list `[value0, count0, value1, count1, ...]`
is walked with stride 2; a pair is emitted only when `i + 1 < len`, so a
trailing unpaired element is dropped.  The value is passed through
Python `str()`; the count goes through pydantic validation of
`FacetValue.count : int`, whose failure (an exception in the Python
code) is the `none` outcome. -/
def processFacetValues : List JVal → Option (List FacetValue)
  | v :: c :: rest => do
      let n ← pydanticInt c
      let tail ← processFacetValues rest
      pure (⟨pyStr v, n⟩ :: tail)
  | _ => some []

/-- A well-formed flat facet encoding of a list of (label, count) pairs:
`[str v0, num c0, str v1, num c1, ...]`. -/
def interleavePairs : List (String × Int) → List JVal
  | [] => []
  | (v, c) :: rest => .str v :: .num c :: interleavePairs rest

/-- `SOLRConfig` from `config.py` (fields only; the environment loading
and validators live outside the claims under scrutiny). -/
structure SOLRConfig where
  base_url : String
  collection : String
  username : Option String
  password : Option String
  timeout : Int
  verify_ssl : Bool
  max_rows : Int
  default_search_field : String
  facet_limit : Int
  highlight_enabled : Bool
deriving DecidableEq, Repr

/-- A value of one wire parameter sent to SOLR: a string, an integer, or
a repeated (multi-valued) string parameter. -/
inductive ParamValue where
  | str (s : String)
  | int (n : Int)
  | strList (l : List String)
deriving DecidableEq, Repr

/-- Python truthiness of an optional list argument: `None` and `[]` are
falsy, a non-empty list is truthy. -/
def truthyOptList (o : Option (List String)) : Bool :=
  match o with
  | none => false
  | some l => !l.isEmpty

/-- Python truthiness of an optional string argument: `None` and `""`
are falsy. -/
def truthyOptStr (o : Option String) : Bool :=
  match o with
  | none => false
  | some s => !s.isEmpty

/-- Row-count resolution at the top of `SOLRClient.search` (lines
219-221): `if rows is None: rows = min(self.config.max_rows, 100)`. -/
def resolveRows (cfg : SOLRConfig) (rows : Option Int) : Int :=
  match rows with
  | some r => r
  | none => min cfg.max_rows 100

/-- The wire-parameter construction of `SOLRClient.search` (lines
218-266), for calls that pass no extra keyword parameters.  The Python
code builds a dict with all-distinct keys in insertion order, which is
modelled as an association list concatenated in the same order; each
`if` mirrors the Python truthiness test on the corresponding argument. -/
def buildSearchParams (cfg : SOLRConfig) (query : String)
    (default_field : Option String) (fields : Option (List String))
    (start : Int) (rows : Option Int) (sort : Option String)
    (filters : Option (List String)) (facet_fields : Option (List String))
    (highlight_fields : Option (List String)) (suggest : Bool) :
    List (String × ParamValue) :=
  [("q", .str query), ("start", .int start), ("rows", .int (resolveRows cfg rows))]
  ++ (if truthyOptStr default_field then
        [("df", .str (default_field.getD ""))] else [])
  ++ (if truthyOptList fields then
        [("fl", .str (String.intercalate "," (fields.getD [])))] else [])
  ++ (if truthyOptStr sort then [("sort", .str (sort.getD ""))] else [])
  ++ (if truthyOptList filters then
        [("fq", .strList (filters.getD []))] else [])
  ++ (if truthyOptList facet_fields then
        [("facet", .str "true"),
         ("facet.field", .strList (facet_fields.getD [])),
         ("facet.limit", .int cfg.facet_limit),
         ("facet.mincount", .int 1)] else [])
  ++ (if truthyOptList highlight_fields && cfg.highlight_enabled then
        [("hl", .str "true"),
         ("hl.fl", .str (String.intercalate "," (highlight_fields.getD []))),
         ("hl.simple.pre", .str "<mark>"),
         ("hl.simple.post", .str "</mark>")]
      else if cfg.highlight_enabled && !truthyOptList highlight_fields then
        [("hl", .str "true"),
         ("hl.fl", .str "*"),
         ("hl.simple.pre", .str "<mark>"),
         ("hl.simple.post", .str "</mark>")]
      else [])
  ++ (if suggest then
        [("spellcheck", .str "true"),
         ("spellcheck.build", .str "true"),
         ("spellcheck.collate", .str "true")] else [])

/-- A sample configuration with highlighting enabled (the `config.py`
defaults with collection `docs`). -/
def sampleConfig : SOLRConfig :=
  ⟨"http://localhost:8983/solr", "docs", none, none, 30, true, 1000,
   "text", 100, true⟩

/-- A sample configuration with highlighting disabled. -/
def sampleConfigNoHl : SOLRConfig :=
  ⟨"http://localhost:8983/solr", "docs", none, none, 30, true, 1000,
   "text", 100, false⟩

/-- The typed error taxonomy of `solr_client.py`: `SOLRConnectionError`
and `SOLRQueryError` (both subclasses of `SOLRClientError`), each
carrying its message. -/
inductive SolrClientError where
  | connectionError (msg : String)
  | queryError (msg : String)
deriving DecidableEq, Repr

/-- Trace of one run of `SOLRClient._ping_with_retry`: how many probe
attempts were made, the sleeps (in milliseconds) performed between
failed attempts, and whether the loop returned normally (`.ok`) or
re-raised the last probe exception (`.error` with its message). -/
structure PingTrace where
  attempts : Nat
  sleeps : List Nat
  outcome : Except String Unit
deriving Repr

/-- One pass of the `for attempt in range(max_retries)` loop of
`_ping_with_retry` (lines 151-165), starting at a given attempt index
with the number of loop iterations still available as structural fuel.
`probe n` is the outcome of `self._solr.ping()` on attempt index `n`.
On failure at the last attempt the exception is re-raised; otherwise the
loop sleeps `0.5 * (attempt + 1)` seconds (modelled as `500 * (attempt
+ 1)` milliseconds, exact since these products are exactly representable
floats) and continues.  When the range is exhausted the function falls
through and returns normally. -/
def pingLoop (probe : Nat → Except String Unit) (maxRetries : Nat) :
    Nat → Nat → PingTrace
  | 0, _ => ⟨0, [], .ok ()⟩
  | remaining + 1, attempt =>
    match probe attempt with
    | .ok _ => ⟨1, [], .ok ()⟩
    | .error e =>
      if attempt = maxRetries - 1 then ⟨1, [], .error e⟩
      else
        let rest := pingLoop probe maxRetries remaining (attempt + 1)
        ⟨rest.attempts + 1, 500 * (attempt + 1) :: rest.sleeps, rest.outcome⟩

/-- `SOLRClient._ping_with_retry` with its default `max_retries = 3`. -/
def pingWithRetry (probe : Nat → Except String Unit)
    (maxRetries : Nat := 3) : PingTrace :=
  pingLoop probe maxRetries maxRetries 0

/-- The connection-probe path of `SOLRClient._initialize_connection`
(lines 93-121): any exception escaping `_ping_with_retry` is caught and
re-raised as `SOLRConnectionError` wrapping the message. -/
def initializeConnection (probe : Nat → Except String Unit) :
    PingTrace × Except SolrClientError Unit :=
  let t := pingWithRetry probe
  (t, match t.outcome with
      | .ok _ => .ok ()
      | .error e => .error (.connectionError ("Failed to connect to SOLR: " ++ e)))

/-- The facet loop of `SOLRClient._process_search_response` (lines
389-404): iterate the `facet_fields` map in order, decode each field's
flat list, and append a `FacetField` only when the decoded value list is
non-empty.  A pydantic failure while decoding any field aborts the whole
processing (the exception propagates), hence the `Option` threading. -/
def processFacets : List (String × List JVal) → Option (List FacetField)
  | [] => some []
  | (fieldName, vals) :: rest => do
      let fvs ← processFacetValues vals
      let tail ← processFacets rest
      pure (if fvs.isEmpty then tail else ⟨fieldName, fvs⟩ :: tail)

/-- The `facets` attribute of the built `SearchResponse` (line 423:
`facets=facets if facets else None`).  The argument is the
`facet_fields` map of the reply's facet section, `none` when the section
is absent or empty (Python truthiness of `response.facets`, lines
390-391).  The outer `Option` is the exception channel. -/
def normFacets : Option (List (String × List JVal)) →
    Option (Option (List FacetField))
  | none => some none
  | some ffs => (processFacets ffs).map fun fs =>
      if fs.isEmpty then none else some fs

/-- Python `repr()` of a `JVal` as it appears inside `str(doc)`:
strings are single-quoted (escaping elided: the claims use quote-free
strings), integers print in decimal. -/
def pyRepr : JVal → String
  | .str s => "\x27" ++ s ++ "\x27"
  | .num n => toString n

/-- A raw reply document: an ordered mapping from field name to value,
as iterated by `doc.items()`. -/
def Doc := List (String × JVal)

/-- Python `str(doc)` for a dict: `\x7b'k1': v1, 'k2': v2\x7d` with
single-quoted keys and `repr`-rendered values. -/
def pyStrOfDoc (doc : Doc) : String :=
  "\x7b" ++
    String.intercalate ", "
      (doc.map fun kv => "\x27" ++ kv.1 ++ "\x27: " ++ pyRepr kv.2) ++
  "\x7d"

/-- Modelled from the runtime: CPython's `hash()` on a string, whose
value depends on the per-process randomized hash seed (PYTHONHASHSEED)
as well as on the string.  CPython uses SipHash keyed by the process
seed; only the joint dependence on seed and content matters to the
claims, so a simple injective-in-the-seed mixing stands in for it. -/
def pyHashStr (seed : Nat) (s : String) : Nat :=
  s.data.foldl (fun a c => a * 31 + c.toNat) seed

/-- The identifier assignment of `_process_search_response` (line 369):
`doc.get("id", str(hash(str(doc))))`.  The process hash seed is an
explicit argument. -/
def docIdOf (seed : Nat) (doc : Doc) : String :=
  match doc.lookup "id" with
  | some v => pyStr v
  | none => toString (pyHashStr seed (pyStrOfDoc doc))

/-- `SearchResult` model from `solr_client.py`.  The score is carried
through untouched, so it is kept as a raw value. -/
structure SearchResult where
  id : String
  score : Option JVal
  fields : List (String × JVal)
  highlighting : Option (List (String × List String))
deriving DecidableEq, Repr

/-- `SearchResponse` model from `solr_client.py`. -/
structure SearchResponse where
  results : List SearchResult
  total_found : Nat
  start : Nat
  rows : Nat
  query_time : Option Int
  facets : Option (List FacetField)
  suggestions : Option (List (String × List String))
deriving DecidableEq, Repr

/-- The value found under a misspelled word in the reply's spellcheck
suggestion map: either a dict (modelled as the mapping of its keys to
candidate lists, the only value shape the code reads from it) or some
non-dict value. -/
inductive SuggestionData where
  | dict (m : List (String × List String))
  | nonDict
deriving DecidableEq, Repr

/-- Python list slicing `l[:n]` for a possibly negative `n`. -/
def pySliceTo (l : List String) (n : Int) : List String :=
  if 0 ≤ n then l.take n.toNat else l.take (l.length - (-n).toNat)

/-- The flattening loop of `SOLRClient.suggest_query` (lines 301-311):
each entry whose value is a dict containing a `suggestion` key
contributes the first `count` candidates; other entries are skipped.
Entries come from a Python dict, so the words are pairwise distinct. -/
def suggestFlatten (count : Int) (entries : List (String × SuggestionData)) :
    List (String × List String) :=
  entries.foldl
    (fun acc e =>
      match e.2 with
      | .dict m =>
        match m.lookup "suggestion" with
        | some l => acc ++ [(e.1, pySliceTo l count)]
        | none => acc
      | .nonDict => acc)
    []

/-- `SOLRClient.suggest_query` (lines 282-317): the engine call outcome
is either an exception (message) or the reply's spellcheck suggestion
map, `none` standing for an absent or falsy `response.spellcheck`
(`response.spellcheck or \x7b\x7d`, line 302).  Any exception yields the
empty mapping. -/
def suggestQueryRun (_query : String) (count : Int)
    (outcome : Except String (Option (List (String × SuggestionData)))) :
    List (String × List String) :=
  match outcome with
  | .error _ => []
  | .ok sc => suggestFlatten count (sc.getD [])

/-- The spellcheck flattening of `_process_search_response` (lines
406-415): same skipping rule as `suggest_query` but without the
`[:count]` truncation. -/
def suggestFlattenFull (entries : List (String × SuggestionData)) :
    List (String × List String) :=
  entries.foldl
    (fun acc e =>
      match e.2 with
      | .dict m =>
        match m.lookup "suggestion" with
        | some l => acc ++ [(e.1, l)]
        | none => acc
      | .nonDict => acc)
    []

/-- A raw SOLR reply as consumed by `_process_search_response`:
documents, hit count, start offset (`getattr(response, "start", 0)`),
query time, the per-document highlight map (`none` for absent or falsy),
the `facet_fields` map of the facet section (`none` for absent or
falsy), and the spellcheck suggestion map (`none` for absent or
falsy). -/
structure RawResponse where
  docs : List Doc
  hits : Nat
  start : Option Nat
  qtime : Option Int
  highlighting : Option (List (String × List (String × List String)))
  facets : Option (List (String × List JVal))
  spellcheck : Option (List (String × SuggestionData))

/-- The per-document part of `_process_search_response` (lines 368-386):
identifier assignment, score promotion, removal of `id`/`score` from the
field map, and attachment of the highlight entry keyed by the document
identifier (`response.highlighting.get(doc_id, \x7b\x7d)`, falsy default
meaning no highlighting). -/
def processDoc (seed : Nat)
    (highlighting : Option (List (String × List (String × List String))))
    (doc : Doc) : SearchResult :=
  let doc_id := docIdOf seed doc
  let score := doc.lookup "score"
  let fields := doc.filter fun kv => kv.1 ≠ "id" ∧ kv.1 ≠ "score"
  let hl :=
    match highlighting with
    | some h =>
      match h.lookup doc_id with
      | some dh => if dh.isEmpty then none else some dh
      | none => none
    | none => none
  ⟨doc_id, score, fields, hl⟩

/-- `SOLRClient._process_search_response` (lines 355-425).  The `Option`
is the exception channel: a pydantic validation failure while building a
`FacetValue` aborts the whole processing. -/
def processSearchResponse (seed : Nat) (r : RawResponse) :
    Option SearchResponse :=
  let results := r.docs.map (processDoc seed r.highlighting)
  match normFacets r.facets with
  | none => none
  | some facets =>
    let suggestions := suggestFlattenFull (r.spellcheck.getD [])
    some ⟨results, r.hits, r.start.getD 0, results.length, r.qtime, facets,
          if suggestions.isEmpty then none else some suggestions⟩

/-- An exception escaping the engine call inside `SOLRClient.search`:
either a `pysolr.SolrError` or any other exception, with its message. -/
inductive PyExc where
  | solrError (msg : String)
  | otherError (msg : String)
deriving DecidableEq, Repr

/-- The message of an exception. -/
def pyExcMsg : PyExc → String
  | .solrError m => m
  | .otherError m => m

/-- The execute-and-normalize part of `SOLRClient.search` (lines
270-280): the engine call either raises (its exception is mapped to
`SOLRQueryError`, with distinct prefixes for `pysolr.SolrError` and for
any other exception) or returns a raw reply, whose processing may itself
raise a validation error that the same catch-all turns into
`SOLRQueryError`. -/
def searchRun (seed : Nat) (outcome : Except PyExc RawResponse) :
    Except SolrClientError SearchResponse :=
  match outcome with
  | .ok r =>
    match processSearchResponse seed r with
    | some sr => .ok sr
    | none => .error (.queryError
        ("Unexpected error during search: " ++ "validation error"))
  | .error (.solrError m) => .error (.queryError ("SOLR query failed: " ++ m))
  | .error (.otherError m) =>
    .error (.queryError ("Unexpected error during search: " ++ m))

/-- `SOLRClient.ping` (lines 167-180): when the client handle is absent
(after `close()`) no probe is attempted and the result is `False`; when
the probe raises the exception is swallowed and the result is `False`;
otherwise `True`. -/
def pingRun (solrPresent : Bool) (outcome : Except String Unit) : Bool :=
  if solrPresent then
    match outcome with
    | .ok _ => true
    | .error _ => false
  else false

/-- `SOLRClient.get_schema_fields` (lines 319-335): sample the field
names of the first returned document; on any exception return the empty
list. -/
def getSchemaFields (outcome : Except String (List Doc)) : List String :=
  match outcome with
  | .error _ => []
  | .ok docs =>
    match docs with
    | d :: _ => d.map Prod.fst
    | [] => []

/-- `SOLRClient.get_collection_stats` (lines 337-353): on success a
three-entry stats map, on any exception the empty map. -/
def getCollectionStats (cfg : SOLRConfig) (outcome : Except String Nat) :
    List (String × JVal) :=
  match outcome with
  | .error _ => []
  | .ok hits =>
    [("total_documents", .num hits),
     ("collection_name", .str cfg.collection),
     ("solr_url", .str cfg.base_url)]

end SolrMCP

namespace SolrMCP

theorem processFacetValues_interleave (ps : List (String × Int)) :
    processFacetValues (interleavePairs ps) =
      some (ps.map fun p => ⟨p.1, p.2⟩) := by
  induction ps with
  | nil => rfl
  | cons p rest ih =>
    cases p with
    | mk v c =>
      simp [interleavePairs, processFacetValues, pydanticInt, pyStr, ih]

theorem processFacetValues_interleave_trailing (ps : List (String × Int))
    (extra : JVal) :
    processFacetValues (interleavePairs ps ++ [extra]) =
      some (ps.map fun p => ⟨p.1, p.2⟩) := by
  induction ps with
  | nil => cases extra <;> rfl
  | cons p rest ih =>
    cases p with
    | mk v c =>
      simp [interleavePairs, processFacetValues, pydanticInt, pyStr, ih]

/-- C1: For every facet field encoded as the flat alternating list
`[value_0, count_0, value_1, count_1, ...]`, the normalizer decodes it by
grouping elements two-at-a-time in original order into `FacetValue`
entries, preserving the engine's order without re-sorting, and dropping
a trailing unpaired element when the list has odd length. -/
theorem c1_facet_positional_decoding :
    (∀ ps : List (String × Int),
        processFacetValues (interleavePairs ps) =
          some (ps.map fun p => ⟨p.1, p.2⟩)) ∧
    (∀ (ps : List (String × Int)) (extra : JVal),
        processFacetValues (interleavePairs ps ++ [extra]) =
          some (ps.map fun p => ⟨p.1, p.2⟩)) ∧
    processFacetValues
        [.str "books", .num 5, .str "articles", .num 3, .str "papers", .num 1] =
      some [⟨"books", 5⟩, ⟨"articles", 3⟩, ⟨"papers", 1⟩] :=
  ⟨processFacetValues_interleave, processFacetValues_interleave_trailing, rfl⟩

theorem processFacets_nonempty (ffs : List (String × List JVal)) :
    ∀ fs, processFacets ffs = some fs → ∀ f ∈ fs, f.values ≠ [] := by
  induction ffs with
  | nil =>
    intro fs h f hf
    simp only [processFacets, Option.some_inj] at h
    subst h
    simp at hf
  | cons p rest ih =>
    intro fs h f hf
    obtain ⟨fieldName, vals⟩ := p
    simp only [processFacets, Option.bind_eq_bind, Option.bind_eq_some,
      Option.pure_def, Option.some_inj] at h
    obtain ⟨fvs, hfvs, tail, htail, hcons⟩ := h
    by_cases hemp : fvs.isEmpty
    · rw [if_pos hemp] at hcons
      exact ih tail htail f (hcons ▸ hf)
    · rw [if_neg hemp] at hcons
      subst hcons
      rcases List.mem_cons.mp hf with hcase | hcase
      · subst hcase
        exact fun hh => hemp (List.isEmpty_iff.mpr hh)
      · exact ih tail htail f hcase

theorem processFacets_all_empty (ffs : List (String × List JVal))
    (h : ∀ p ∈ ffs, processFacetValues p.2 = some []) :
    processFacets ffs = some [] := by
  induction ffs with
  | nil => rfl
  | cons p rest ih =>
    obtain ⟨fieldName, vals⟩ := p
    have h1 : processFacetValues vals = some [] :=
      h (fieldName, vals) (List.mem_cons_self _ _)
    have h2 : processFacets rest = some [] :=
      ih fun q hq => h q (List.mem_cons_of_mem _ hq)
    simp [processFacets, h1, h2]

/-- C5: a facet field whose decoded value list is empty never appears in
the normalized facet list; when every facet field decodes empty, and when
the facet section is absent, the `facets` attribute is `None` rather
than an empty list. -/
theorem c5_empty_facets_omitted :
    (∀ (ffs : List (String × List JVal)) (fs : List FacetField),
        normFacets (some ffs) = some (some fs) → ∀ f ∈ fs, f.values ≠ []) ∧
    (∀ ffs : List (String × List JVal),
        (∀ p ∈ ffs, processFacetValues p.2 = some []) →
        normFacets (some ffs) = some none) ∧
    normFacets none = some none := by
  refine ⟨?_, ?_, rfl⟩
  · intro ffs fs h
    simp only [normFacets, Option.map_eq_some'] at h
    obtain ⟨fs0, hfs0, heq⟩ := h
    by_cases hemp : fs0.isEmpty
    · rw [if_pos hemp] at heq
      cases heq
    · rw [if_neg hemp, Option.some_inj] at heq
      subst heq
      exact processFacets_nonempty ffs _ hfs0
  · intro ffs h
    simp [normFacets, processFacets_all_empty ffs h]

theorem lookup_append (k : String) (l1 l2 : List (String × ParamValue)) :
    (l1 ++ l2).lookup k = ((l1.lookup k).orElse fun _ => l2.lookup k) := by
  induction l1 with
  | nil => rfl
  | cons a t ih =>
    obtain ⟨k1, v⟩ := a
    cases h : (k == k1) <;> simp [List.lookup, h, ih]

theorem lookup_ite (k : String) (c : Prop) [Decidable c]
    (l1 l2 : List (String × ParamValue)) :
    (if c then l1 else l2).lookup k = if c then l1.lookup k else l2.lookup k := by
  split <;> rfl

/-- C8: an empty return-field list and an absent return-field list
produce identical wire-parameter sets, and neither emits the `fl`
field-list restriction parameter. -/
theorem c8_empty_fields_like_absent (cfg : SOLRConfig) (query : String)
    (default_field : Option String) (start : Int) (rows : Option Int)
    (sort : Option String) (filters facet_fields highlight_fields : Option (List String))
    (suggest : Bool) :
    buildSearchParams cfg query default_field (some []) start rows sort
        filters facet_fields highlight_fields suggest =
      buildSearchParams cfg query default_field none start rows sort
        filters facet_fields highlight_fields suggest ∧
    (buildSearchParams cfg query default_field none start rows sort
        filters facet_fields highlight_fields suggest).lookup "fl" = none := by
  refine ⟨rfl, ?_⟩
  simp [buildSearchParams, truthyOptList, lookup_append, lookup_ite,
    List.lookup, ite_self]

/-- C4: with highlighting enabled and explicit highlight fields given,
the built parameters enable highlighting scoped to exactly those fields
with the fixed `<mark>`/`</mark>` markers; with highlighting enabled and
no fields given (None or empty, both falsy in Python), the wildcard
selector is used; with highlighting disabled, no highlighting parameter
is emitted at all. -/
theorem c4_highlighting_params :
    (∀ (cfg : SOLRConfig) (query : String) (df : Option String)
        (fl : Option (List String)) (start : Int) (rows : Option Int)
        (sort : Option String) (fq ff : Option (List String))
        (hfl : List String) (sg : Bool),
        cfg.highlight_enabled = true → hfl ≠ [] →
        ((buildSearchParams cfg query df fl start rows sort fq ff (some hfl)
            sg).lookup "hl" = some (.str "true") ∧
         (buildSearchParams cfg query df fl start rows sort fq ff (some hfl)
            sg).lookup "hl.fl" = some (.str (String.intercalate "," hfl)) ∧
         (buildSearchParams cfg query df fl start rows sort fq ff (some hfl)
            sg).lookup "hl.simple.pre" = some (.str "<mark>") ∧
         (buildSearchParams cfg query df fl start rows sort fq ff (some hfl)
            sg).lookup "hl.simple.post" = some (.str "</mark>"))) ∧
    (∀ (cfg : SOLRConfig) (query : String) (df : Option String)
        (fl : Option (List String)) (start : Int) (rows : Option Int)
        (sort : Option String) (fq ff hf : Option (List String)) (sg : Bool),
        cfg.highlight_enabled = true → truthyOptList hf = false →
        ((buildSearchParams cfg query df fl start rows sort fq ff hf
            sg).lookup "hl" = some (.str "true") ∧
         (buildSearchParams cfg query df fl start rows sort fq ff hf
            sg).lookup "hl.fl" = some (.str "*") ∧
         (buildSearchParams cfg query df fl start rows sort fq ff hf
            sg).lookup "hl.simple.pre" = some (.str "<mark>") ∧
         (buildSearchParams cfg query df fl start rows sort fq ff hf
            sg).lookup "hl.simple.post" = some (.str "</mark>"))) ∧
    (∀ (cfg : SOLRConfig) (query : String) (df : Option String)
        (fl : Option (List String)) (start : Int) (rows : Option Int)
        (sort : Option String) (fq ff hf : Option (List String)) (sg : Bool),
        cfg.highlight_enabled = false →
        ((buildSearchParams cfg query df fl start rows sort fq ff hf
            sg).lookup "hl" = none ∧
         (buildSearchParams cfg query df fl start rows sort fq ff hf
            sg).lookup "hl.fl" = none ∧
         (buildSearchParams cfg query df fl start rows sort fq ff hf
            sg).lookup "hl.simple.pre" = none ∧
         (buildSearchParams cfg query df fl start rows sort fq ff hf
            sg).lookup "hl.simple.post" = none)) := by
  refine ⟨?_, ?_, ?_⟩
  · intro cfg query df fl start rows sort fq ff hfl sg hen hne
    have htr : truthyOptList (some hfl) = true := by
      cases hfl with
      | nil => exact absurd rfl hne
      | cons a t => rfl
    refine ⟨?_, ?_, ?_, ?_⟩ <;>
      simp [buildSearchParams, lookup_append, lookup_ite, List.lookup,
        htr, hen, ite_self]
  · intro cfg query df fl start rows sort fq ff hf sg hen htr
    refine ⟨?_, ?_, ?_, ?_⟩ <;>
      simp [buildSearchParams, lookup_append, lookup_ite, List.lookup,
        htr, hen, ite_self]
  · intro cfg query df fl start rows sort fq ff hf sg hen
    refine ⟨?_, ?_, ?_, ?_⟩ <;>
      simp [buildSearchParams, lookup_append, lookup_ite, List.lookup,
        hen, ite_self]

/-- Witness for C4 at concrete inputs: explicit fields `title,content`
are joined for `hl.fl`; with no fields the wildcard is used; with
highlighting disabled `hl` is absent. -/
theorem c4_highlighting_params_witness :
    (buildSearchParams sampleConfig "solr" none none 0 none none none none
        (some ["title", "content"]) false).lookup "hl.fl" =
      some (.str "title,content") ∧
    (buildSearchParams sampleConfig "solr" none none 0 none none none none
        none false).lookup "hl.fl" = some (.str "*") ∧
    (buildSearchParams sampleConfigNoHl "solr" none none 0 none none none
        none none false).lookup "hl" = none :=
  ⟨(c4_highlighting_params.1 sampleConfig "solr" none none 0 none none none
      none ["title", "content"] false rfl (by decide)).2.1,
   (c4_highlighting_params.2.1 sampleConfig "solr" none none 0 none none
      none none none false rfl rfl).2.1,
   (c4_highlighting_params.2.2 sampleConfigNoHl "solr" none none 0 none
      none none none none false rfl).1⟩

/-- C10: when no row count is given, the built parameters use
`min(config.max_rows, 100)` as row count; in particular for every
configuration with `max_rows ≥ 100` the default is exactly 100. -/
theorem c10_default_rows (cfg : SOLRConfig) (query : String)
    (df : Option String) (fl : Option (List String)) (start : Int)
    (sort : Option String) (fq ff hf : Option (List String)) (sg : Bool) :
    (buildSearchParams cfg query df fl start none sort fq ff hf
        sg).lookup "rows" = some (.int (min cfg.max_rows 100)) ∧
    (100 ≤ cfg.max_rows →
      (buildSearchParams cfg query df fl start none sort fq ff hf
          sg).lookup "rows" = some (.int 100)) := by
  have base : (buildSearchParams cfg query df fl start none sort fq ff hf
      sg).lookup "rows" = some (.int (min cfg.max_rows 100)) := rfl
  exact ⟨base, fun h => by rw [base, min_eq_right h]⟩

/-- Witness for C10 at a concrete configuration with `max_rows = 1000`:
the default row count is 100. -/
theorem c10_default_rows_witness :
    (100 : Int) ≤ sampleConfig.max_rows ∧
    (buildSearchParams sampleConfig "solr" none none 0 none none none none
        none false).lookup "rows" = some (.int 100) :=
  ⟨by decide,
   (c10_default_rows sampleConfig "solr" none none 0 none none none none
      false).2 (by decide)⟩

/-- C2: when every connection probe fails, client construction makes
exactly 3 probe attempts, sleeps 0.5s then 1.0s between failed attempts
(strictly increasing, 0.5s times the attempt number), and raises
ConnectionError. -/
theorem c2_connection_retry (probe : Nat → Except String Unit)
    (h : ∀ i, i < 3 → ∃ m, probe i = .error m) :
    (initializeConnection probe).1.attempts = 3 ∧
    (initializeConnection probe).1.sleeps = [500, 1000] ∧
    List.Chain' (· < ·) (initializeConnection probe).1.sleeps ∧
    (∀ k (hk : k < (initializeConnection probe).1.sleeps.length),
        (initializeConnection probe).1.sleeps.get ⟨k, hk⟩ = 500 * (k + 1)) ∧
    ∃ m, (initializeConnection probe).2 = .error (.connectionError m) := by
  obtain ⟨m0, h0⟩ := h 0 (by norm_num)
  obtain ⟨m1, h1⟩ := h 1 (by norm_num)
  obtain ⟨m2, h2⟩ := h 2 (by norm_num)
  have key : initializeConnection probe =
      (⟨3, [500, 1000], .error m2⟩,
       .error (.connectionError ("Failed to connect to SOLR: " ++ m2))) := by
    simp [initializeConnection, pingWithRetry, pingLoop, h0, h1, h2]
  rw [key]
  refine ⟨rfl, rfl,
    (by norm_num [List.chain'_cons] : List.Chain' (· < ·) [500, 1000]), ?_,
    ⟨_, rfl⟩⟩
  intro k hk
  have hk2 : k < 2 := hk
  interval_cases k <;> rfl

/-- Witness for C2: a probe that always fails with message `refused`
yields 3 attempts, sleeps [500ms, 1000ms] strictly increasing, and a
ConnectionError. -/
theorem c2_connection_retry_witness :
    (initializeConnection (fun _ => .error "refused")).1.attempts = 3 ∧
    (initializeConnection (fun _ => .error "refused")).1.sleeps = [500, 1000] ∧
    List.Chain' (· < ·)
      (initializeConnection (fun _ => .error "refused")).1.sleeps :=
  ⟨(c2_connection_retry (fun _ => .error "refused")
      (fun _ _ => ⟨"refused", rfl⟩)).1,
   (c2_connection_retry (fun _ => .error "refused")
      (fun _ _ => ⟨"refused", rfl⟩)).2.1,
   (c2_connection_retry (fun _ => .error "refused")
      (fun _ _ => ⟨"refused", rfl⟩)).2.2.1⟩

/-- Witness for C5 at concrete inputs: a facet map with one non-empty
field and one empty field keeps only the non-empty one with non-empty
values, and a facet map whose fields all decode empty (including a
single unpaired trailing element) yields an absent facets attribute. -/
theorem c5_empty_facets_omitted_witness :
    (FacetField.mk "category" [⟨"books", 5⟩]).values ≠ [] ∧
    normFacets (some [("category", ([] : List JVal)),
                      ("tags", [JVal.str "solo"])]) = some none :=
  ⟨c5_empty_facets_omitted.1
      [("category", [JVal.str "books", JVal.num 5]), ("empty", [])]
      [FacetField.mk "category" [⟨"books", 5⟩]] (by decide) _ (by decide),
   c5_empty_facets_omitted.2.1
      [("category", []), ("tags", [JVal.str "solo"])] (by decide)⟩

/-- C3: the fallback identifier `str(hash(str(doc)))` assigned to a
document lacking an `id` field depends on the process hash seed, so two
normalization runs under different seeds (the CPython default, where
PYTHONHASHSEED is randomized per process) assign different identifiers
to the same input document. -/
theorem c3_fallback_id_seed_dependent :
    (processDoc 0 none [("title", JVal.str "x")]).id ≠
      (processDoc 1 none [("title", JVal.str "x")]).id ∧
    docIdOf 0 [("title", JVal.str "x")] ≠
      docIdOf 1 [("title", JVal.str "x")] := by
  constructor <;> decide

/-- C6: every failing engine call surfaces from `search` as a
`SOLRQueryError` whose message extends the underlying cause message, and
no call ever produces any error other than `SOLRQueryError` (in
particular never a `SOLRConnectionError`). -/
theorem c6_search_failures_are_query_errors :
    (∀ (seed : Nat) (exc : PyExc), ∃ m,
        searchRun seed (.error exc) = .error (.queryError m) ∧
        ∃ pre, m = pre ++ pyExcMsg exc) ∧
    (∀ (seed : Nat) (outcome : Except PyExc RawResponse),
        (∃ sr, searchRun seed outcome = .ok sr) ∨
        (∃ m, searchRun seed outcome = .error (.queryError m))) := by
  constructor
  · intro seed exc
    cases exc with
    | solrError m => exact ⟨_, rfl, "SOLR query failed: ", rfl⟩
    | otherError m =>
      exact ⟨_, rfl, "Unexpected error during search: ", rfl⟩
  · intro seed outcome
    cases outcome with
    | error e => cases e <;> exact .inr ⟨_, rfl⟩
    | ok r =>
      cases h : processSearchResponse seed r with
      | some sr => exact .inl ⟨sr, by simp [searchRun, h]⟩
      | none =>
        exact .inr ⟨"Unexpected error during search: " ++ "validation error",
          by simp [searchRun, h]⟩

/-- C7: the best-effort operations swallow any transport exception and
degrade to their safe defaults: `ping` to `false`, `suggest_query` to
the empty mapping, `get_schema_fields` to the empty list, and
`get_collection_stats` to the empty map. -/
theorem c7_best_effort_never_raise :
    ∀ (msg : String) (cfg : SOLRConfig) (query : String) (count : Int),
      pingRun true (.error msg) = false ∧
      pingRun false (.error msg) = false ∧
      suggestQueryRun query count (.error msg) = [] ∧
      getSchemaFields (.error msg) = [] ∧
      getCollectionStats cfg (.error msg) = [] :=
  fun _ _ _ _ => ⟨rfl, rfl, rfl, rfl, rfl⟩

theorem suggestFlatten_aux (count : Int)
    (entries : List (String × SuggestionData))
    (acc : List (String × List String)) :
    entries.foldl
      (fun acc e =>
        match e.2 with
        | .dict m =>
          match m.lookup "suggestion" with
          | some l => acc ++ [(e.1, pySliceTo l count)]
          | none => acc
        | .nonDict => acc)
      acc =
    acc ++ entries.filterMap (fun e =>
      match e.2 with
      | .dict m =>
        match m.lookup "suggestion" with
        | some l => some (e.1, pySliceTo l count)
        | none => none
      | .nonDict => none) := by
  induction entries generalizing acc with
  | nil => simp
  | cons e rest ih =>
    obtain ⟨w, d⟩ := e
    cases d with
    | nonDict => simpa using ih acc
    | dict m =>
      cases hl : m.lookup "suggestion" with
      | none => simpa [hl] using ih acc
      | some l => simp [hl, ih]

/-- C9: `suggest_query` flattens each suggestion-map entry containing a
`suggestion` list into a plain term-to-candidates mapping truncated to
the first `count` candidates, skipping entries without a `suggestion`
key; in particular `suggest_query("documnt", 2)` on reply suggestions
`documnt -> suggestion [document, documents, docent]` yields
`documnt -> [document, documents]`. -/
theorem c9_suggest_flattening :
    (∀ (count : Int) (entries : List (String × SuggestionData)),
        suggestFlatten count entries = entries.filterMap (fun e =>
          match e.2 with
          | .dict m =>
            match m.lookup "suggestion" with
            | some l => some (e.1, pySliceTo l count)
            | none => none
          | .nonDict => none)) ∧
    suggestQueryRun "documnt" 2
        (.ok (some [("documnt",
          .dict [("suggestion", ["document", "documents", "docent"])])])) =
      [("documnt", ["document", "documents"])] := by
  constructor
  · intro count entries
    simpa using suggestFlatten_aux count entries []
  · rfl

end SolrMCP
